import Mathlib

/-!
# cloudflare/templates, containers-template: container_src/main.go

A shallow embedding of the Go program of the container template and of the
parts of the Go standard library it calls (os.Getenv, fmt.Fprintf with the
verb %s, the http.ResponseWriter, http.ServeMux, http.ListenAndServe and
log.Fatal), followed by the properties of its request handling.

Go strings are modelled as Lean strings.  The process environment, the
response writer and the route table are explicit values.
-/

namespace ContainerSrc

/-! ## os: the process environment -/

/-- The process environment: the list of KEY, VALUE bindings of the process. -/
abbrev Env := List (String × String)

/-- os.LookupEnv: the value of the first binding of the key, if there is one. -/
def LookupEnv (env : Env) (key : String) : Option String :=
  match env with
  | [] => none
  | (k, v) :: rest => if k = key then some v else LookupEnv rest key

/-- os.Getenv: the value of the variable, which is empty when the variable is
not present. -/
def Getenv (env : Env) (key : String) : String :=
  match LookupEnv env key with
  | some v => v
  | none => ""

/-! ## fmt: formatting with string operands -/

/-- The text fmt appends for operands left over after the format is used up:
%!(EXTRA string=a, string=b). -/
def extraArgs (args : List String) : String :=
  "%!(EXTRA " ++ ", ".intercalate (args.map (fun a => "string=" ++ a)) ++ ")"

/-- The scan of fmt's doPrintf over the format, for string operands: bytes
other than a percent sign are copied, %% writes a percent sign, %s writes the next
operand unchanged (or %!s(MISSING) when none is left), a percent sign that ends
the format writes %!(NOVERB).  Flags, widths and the other verbs are outside
this fragment and give none.  The operands are never scanned. -/
def doPrintf : List Char → List String → Option String
  | [], [] => some ""
  | [], a :: args => some (extraArgs (a :: args))
  | '%' :: [], _ => some "%!(NOVERB)"
  | '%' :: '%' :: rest, args => (doPrintf rest args).map (fun out => "%" ++ out)
  | '%' :: 's' :: rest, [] => (doPrintf rest []).map (fun out => "%!s(MISSING)" ++ out)
  | '%' :: 's' :: rest, a :: args => (doPrintf rest args).map (fun out => a ++ out)
  | '%' :: _ :: _, _ => none
  | c :: rest, args => (doPrintf rest args).map (fun out => String.singleton c ++ out)

/-- fmt.Sprintf on string operands. -/
def Sprintf (format : String) (args : List String) : Option String :=
  doPrintf format.toList args

/-! ## net/http: the response writer -/

/-- The part of an http.ResponseWriter a handler can change: the status
written so far (none until the header is written) and the body bytes
written so far. -/
structure ResponseWriter where
  status : Option Nat
  body : String
  deriving DecidableEq, Repr

/-- The response writer a handler receives: nothing written yet. -/
def ResponseWriter.fresh : ResponseWriter := { status := none, body := "" }

/-- ResponseWriter.WriteHeader: the first call fixes the status, later calls
are ignored. -/
def ResponseWriter.WriteHeader (w : ResponseWriter) (code : Nat) : ResponseWriter :=
  match w.status with
  | none => { w with status := some code }
  | some _ => w

/-- ResponseWriter.Write: writes the header with status 200 when it has not
been written yet, then appends the data to the body. -/
def ResponseWriter.Write (w : ResponseWriter) (data : String) : ResponseWriter :=
  let w1 := w.WriteHeader 200
  { w1 with body := w1.body ++ data }

/-! ## path: lexical cleaning -/

/-- Whether the element being read ends here: the input is used up or the
next byte is a slash (the tests r+1 == n || path[r+1] == '/' of path.Clean). -/
def atElementEnd : List Char → Bool
  | [] => true
  | c :: _ => c == '/'

/-- The backtracking of path.Clean at a dot-dot element, on the output
buffer held last byte first: the write index is decremented once, then
while it is above dotdot and the byte at it is not a slash. -/
def backtrack (dotdot : Nat) : List Char → List Char
  | [] => []
  | x :: tl => if dotdot < tl.length && x != '/' then backtrack dotdot tl else tl

/-- The slash path.Clean writes before a real path element: none at the
start of the output (write index 1 when rooted, 0 when not). -/
def addSlash (rooted : Bool) (rout : List Char) : List Char :=
  if (rooted = true ∧ rout.length ≠ 1) ∨ (rooted = false ∧ rout.length ≠ 0)
  then '/' :: rout else rout

/-- The dot-dot element of path.Clean: backtrack when the write index is
above dotdot; otherwise, when the path is not rooted, append the element
and move dotdot up to the write index; otherwise nothing.  The result is
the new buffer and the new dotdot. -/
def dotDot (rooted : Bool) (rout : List Char) (dotdot : Nat) : List Char × Nat :=
  if dotdot < rout.length then (backtrack dotdot rout, dotdot)
  else if rooted = false then
    let rout1 := if 0 < rout.length then '/' :: rout else rout
    ('.' :: '.' :: rout1, rout1.length + 2)
  else (rout, dotdot)

/-- The loop of path.Clean over the unread input.  The output buffer rout is
held last byte first, so its length is the write index w.  The flag copying
is true inside the inner loop that copies a real path element up to the next
slash.  The slash that ends an element is an empty element for the next
round of the loop and is skipped together with the element. -/
def cleanLoop (rooted : Bool) : Bool → List Char → List Char → Nat → List Char
  | _, [], rout, _ => rout
  | true, '/' :: rest, rout, dotdot => cleanLoop rooted false rest rout dotdot
  | true, c :: rest, rout, dotdot => cleanLoop rooted true rest (c :: rout) dotdot
  -- empty path element
  | false, '/' :: rest, rout, dotdot => cleanLoop rooted false rest rout dotdot
  -- . element
  | false, '.' :: [], rout, _ => rout
  | false, '.' :: '/' :: rest, rout, dotdot => cleanLoop rooted false rest rout dotdot
  -- .. element: remove to last /
  | false, '.' :: '.' :: [], rout, dotdot => (dotDot rooted rout dotdot).1
  | false, '.' :: '.' :: '/' :: rest, rout, dotdot =>
    cleanLoop rooted false rest (dotDot rooted rout dotdot).1 (dotDot rooted rout dotdot).2
  -- real path element: add slash if needed, then copy the element
  | false, c :: rest, rout, dotdot =>
    cleanLoop rooted true rest (c :: addSlash rooted rout) dotdot

/-- path.Clean: the shortest path name equivalent to path by purely lexical
processing. -/
def Clean (path : String) : String :=
  match path.toList with
  | [] => "."
  | c :: rest =>
    let rooted : Bool := c = '/'
    let rout :=
      if rooted = true then cleanLoop rooted false rest ['/'] 1
      else cleanLoop rooted false (c :: rest) [] 0
    -- Turn empty string into "."
    if rout.length = 0 then "." else String.mk rout.reverse

/-- net/http cleanPath: the canonical path for p, eliminating . and ..
elements; a trailing slash is kept. -/
def cleanPath (p : String) : String :=
  if p = "" then "/"
  else
    let p1 := if p.toList.head? ≠ some '/' then "/" ++ p else p
    let np := Clean p1
    -- path.Clean removes trailing slash except for root;
    -- put the trailing slash back if necessary.
    if p1.toList.getLast? = some '/' ∧ np ≠ "/" then
      if p1.length = np.length + 1 ∧ np.toList.isPrefixOf p1.toList = true then p1
      else np ++ "/"
    else np

/-! ## net/http: requests and the request multiplexer -/

/-- An inbound request as the server hands it to a handler.  Path is
r.URL.Path; for the asterisk-form request target (RequestURI equal to *) it
is the one-byte string *, as url.ParseRequestURI sets it. -/
structure Request where
  Method : String
  Host : String
  Path : String
  RawQuery : String
  Header : List (String × String)
  Body : String
  deriving DecidableEq, Repr

/-- The two handler functions main.go defines and registers. -/
inductive HandlerFunc where
  | handler
  | errorHandler
  deriving DecidableEq, Repr

/-- An entry of the multiplexer: a handler and the pattern it is registered
under. -/
structure muxEntry where
  h : HandlerFunc
  pattern : String
  deriving DecidableEq, Repr

/-- The state of an http.ServeMux: the map m from pattern to entry (held as
a list with at most one entry per pattern), the entries es whose pattern
ends in a slash, sorted from longest to shortest, and whether any pattern
contains a host name. -/
structure ServeMux where
  m : List muxEntry
  es : List muxEntry
  hosts : Bool
  deriving DecidableEq, Repr

/-- The handler that ServeMux.Handler selects for a request: a registered
function, the not-found handler, or a redirect to the path and query given,
with the status given. -/
inductive Handler where
  | func (f : HandlerFunc)
  | NotFound
  | Redirect (path rawQuery : String) (code : Nat)
  deriving DecidableEq, Repr

/-- http.DefaultServeMux before any registration. -/
def DefaultServeMux : ServeMux := { m := [], es := [], hosts := false }

/-- The map lookup mux.m[pattern]. -/
def ServeMux.lookup (mux : ServeMux) (pattern : String) : Option muxEntry :=
  mux.m.find? (fun e => e.pattern = pattern)

/-- The insertion of net/http appendSorted: e goes before the first entry
whose pattern is shorter than its own. -/
def appendSorted (es : List muxEntry) (e : muxEntry) : List muxEntry :=
  match es with
  | [] => [e]
  | x :: rest =>
    if x.pattern.length < e.pattern.length then e :: x :: rest
    else x :: appendSorted rest e

/-- ServeMux.Handle: registers the handler for the pattern.  The error is
the value Handle panics with: on an empty pattern and on a pattern that is
registered already. -/
def ServeMux.Handle (mux : ServeMux) (pattern : String) (h : HandlerFunc) :
    Except String ServeMux :=
  if pattern = "" then .error "http: invalid pattern"
  else if (mux.lookup pattern).isSome then
    .error ("http: multiple registrations for " ++ pattern)
  else
    let e : muxEntry := { h := h, pattern := pattern }
    .ok { m := e :: mux.m
          es := if pattern.toList.getLast? = some '/' then appendSorted mux.es e else mux.es
          hosts := if pattern.toList.head? ≠ some '/' then true else mux.hosts }

/-- http.HandleFunc on a given multiplexer: ServeMux.HandleFunc hands the
function to Handle. -/
def ServeMux.HandleFunc (mux : ServeMux) (pattern : String) (h : HandlerFunc) :
    Except String ServeMux :=
  mux.Handle pattern h

/-- ServeMux.match: the entry for a path: an exact match first, otherwise
the first entry of es (the longest pattern) that is a leading part of the
path. -/
def ServeMux.matchPath (mux : ServeMux) (path : String) : Option muxEntry :=
  match mux.lookup path with
  | some v => some v
  | none => mux.es.find? (fun e => e.pattern.toList.isPrefixOf path.toList)

/-- ServeMux.handler: the main implementation of Handler; a host-specific
pattern takes precedence over a generic one, and no match gives the
not-found handler. -/
def ServeMux.handler (mux : ServeMux) (host path : String) : Handler :=
  let h := if mux.hosts = true then mux.matchPath (host ++ path) else none
  let h := match h with
    | some e => some e
    | none => mux.matchPath path
  match h with
  | some e => Handler.func e.h
  | none => Handler.NotFound

/-- ServeMux.shouldRedirectRLocked: whether path with a slash appended is
registered while path itself is not. -/
def ServeMux.shouldRedirectRLocked (mux : ServeMux) (host path : String) : Bool :=
  let p := [path, host ++ path]
  if p.any (fun c => (mux.lookup c).isSome) then false
  else if path.length = 0 then false
  else if p.any (fun c => (mux.lookup (c ++ "/")).isSome) then
    decide (path.toList.getLast? ≠ some '/')
  else false

/-- ServeMux.Handler: the handler to use for the request.  A CONNECT request
is not canonicalized.  Every other request has its path cleaned and is
redirected (301) when the cleaned path differs from its own.  Host is taken
with any port stripped already. -/
def ServeMux.Handler (mux : ServeMux) (r : Request) : Handler :=
  if r.Method = "CONNECT" then
    if mux.shouldRedirectRLocked r.Host r.Path = true then
      Handler.Redirect (r.Path ++ "/") r.RawQuery 301
    else mux.handler r.Host r.Path
  else
    let path := cleanPath r.Path
    if mux.shouldRedirectRLocked r.Host path = true then
      Handler.Redirect (path ++ "/") r.RawQuery 301
    else if path ≠ r.Path then
      Handler.Redirect path r.RawQuery 301
    else mux.handler r.Host r.Path

/-! ## main.go -/

/-- The process state a handler can reach: the environment and the default
multiplexer holding the route table. -/
structure Process where
  env : Env
  mux : ServeMux
  deriving DecidableEq, Repr

/-- How a handler call ends: it returns, or it panics with a value. -/
inductive Completion where
  | returned
  | panicked (v : String)
  deriving DecidableEq, Repr

/-- The effect of a handler call: the process state and the response writer
after the call, and how the call ended. -/
structure Outcome where
  proc : Process
  w : ResponseWriter
  completion : Completion
  deriving DecidableEq, Repr

/-- fmt.Fprintf to a response writer: formats, then writes the result with
one call of Write. -/
def Fprintf (w : ResponseWriter) (format : String) (args : List String) :
    Option ResponseWriter :=
  (Sprintf format args).map w.Write

/-- The function handler of main.go. -/
def handler (proc : Process) (w : ResponseWriter) (_r : Request) : Option Outcome :=
  let message := Getenv proc.env "MESSAGE"
  let instanceId := Getenv proc.env "CLOUDFLARE_DEPLOYMENT_ID"
  (Fprintf w "Hi, I'm a container and this is my message: \"%s\", my instance ID is: %s"
      [message, instanceId]).map
    (fun w1 => { proc := proc, w := w1, completion := Completion.returned })

/-- The function errorHandler of main.go. -/
def errorHandler (proc : Process) (w : ResponseWriter) (_r : Request) : Option Outcome :=
  some { proc := proc, w := w, completion := Completion.panicked "This is a panic" }

/-- The call of a registered handler function. -/
def HandlerFunc.ServeHTTP (f : HandlerFunc) (proc : Process) (w : ResponseWriter)
    (r : Request) : Option Outcome :=
  match f with
  | HandlerFunc.handler => ContainerSrc.handler proc w r
  | HandlerFunc.errorHandler => ContainerSrc.errorHandler proc w r

/-! ## net/http: serving -/

/-- What the server does with one request: a response with a status and
the body bytes written by its handler (the transport, which omits the body
of the response to a HEAD request, lies below this model); a redirect
response (its Location header and HTML body are determined by the path and
query, and are not spelled out); or no response, because the handler
panicked and the server closed the connection, with what the handler had
written before. -/
inductive ServeResult where
  | response (status : Nat) (body : String)
  | redirect (code : Nat) (path rawQuery : String)
  | aborted (v : String) (written : ResponseWriter)
  deriving DecidableEq, Repr

/-- The status the client receives, if it receives one. -/
def ServeResult.status : ServeResult → Option Nat
  | ServeResult.response status _ => some status
  | ServeResult.redirect code _ _ => some code
  | ServeResult.aborted _ _ => none

/-- The end of a handler call in the connection's serve loop: a returning
handler has its response finished, with status 200 when it wrote no header;
a panic is recovered by the connection, which is closed without a
response. -/
def finishRequest (o : Outcome) : ServeResult :=
  match o.completion with
  | Completion.returned =>
    ServeResult.response (match o.w.status with | some c => c | none => 200) o.w.body
  | Completion.panicked v => ServeResult.aborted v o.w

/-- The server's dispatch of one request to the default multiplexer
(serverHandler.ServeHTTP and ServeMux.ServeHTTP): OPTIONS * is answered by
the server itself with an empty 200, any other request for * with 400;
otherwise the handler chosen by ServeMux.Handler runs on a fresh response
writer. -/
def serveRequest (proc : Process) (r : Request) : Option (Process × ServeResult) :=
  if r.Path = "*" ∧ r.Method = "OPTIONS" then some (proc, ServeResult.response 200 "")
  else if r.Path = "*" then some (proc, ServeResult.response 400 "")
  else
    match proc.mux.Handler r with
    | Handler.func f =>
      (f.ServeHTTP proc ResponseWriter.fresh r).map (fun o => (o.proc, finishRequest o))
    | Handler.NotFound => some (proc, ServeResult.response 404 "404 page not found\n")
    | Handler.Redirect path rawQuery code =>
      some (proc, ServeResult.redirect code path rawQuery)

/-- What happens to the running server: a request arrives, or the process
environment is replaced (a redeploy with other values). -/
inductive Event where
  | request (r : Request)
  | environ (env : Env)
  deriving DecidableEq, Repr

/-- The accept loop of Server.Serve over the events that arrive, in order:
the process state after them and the result of every request. -/
def Serve (proc : Process) : List Event → Option (Process × List ServeResult)
  | [] => some (proc, [])
  | Event.environ env :: rest => Serve { proc with env := env } rest
  | Event.request r :: rest =>
    match serveRequest proc r with
    | none => none
    | some (proc1, res) =>
      match Serve proc1 rest with
      | none => none
      | some (proc2, results) => some (proc2, res :: results)

/-- The surroundings of one run of the program: the environment at startup,
the answer of net.Listen for an address (the error, when binding fails),
the events that arrive once the listener is bound, and the error that ends
the accept loop. -/
structure World where
  env : Env
  listen : String → Option String
  traffic : List Event
  acceptErr : String

/-- What a run leaves behind: the addresses net.Listen was called with, the
results of the requests served, the lines written to the log, and the exit
status. -/
structure Exit where
  listens : List String
  served : List ServeResult
  log : List String
  code : Nat
  deriving DecidableEq, Repr

/-- A run of http.ListenAndServe: one call of net.Listen; its error is
returned at once, otherwise Serve runs until the accept loop fails.  The
result is the addresses listened on, the results of the requests served and
the error returned, which is never nil. -/
def ListenAndServe (world : World) (proc : Process) (addr : String) :
    Option (List String × List ServeResult × String) :=
  match world.listen addr with
  | some err => some ([addr], [], err)
  | none =>
    match Serve proc world.traffic with
    | none => none
    | some (_, results) => some ([addr], results, world.acceptErr)

/-- A run that ends in a panic of the main goroutine: the panic is printed
and the exit status is 2. -/
def Exit.panic (v : String) : Exit :=
  { listens := [], served := [], log := ["panic: " ++ v], code := 2 }

/-- The function main of main.go: three registrations on the default
multiplexer, then log.Fatal on the error of http.ListenAndServe, which
prints the error and exits with status 1. -/
def main (world : World) : Option Exit :=
  match DefaultServeMux.HandleFunc "/" HandlerFunc.handler with
  | .error v => some (Exit.panic v)
  | .ok mux1 =>
    match mux1.HandleFunc "/container" HandlerFunc.handler with
    | .error v => some (Exit.panic v)
    | .ok mux2 =>
      match mux2.HandleFunc "/error" HandlerFunc.errorHandler with
      | .error v => some (Exit.panic v)
      | .ok mux3 =>
        match ListenAndServe world { env := world.env, mux := mux3 } ":8080" with
        | none => none
        | some (listens, served, err) =>
          some { listens := listens, served := served, log := [err], code := 1 }

/-! ## Observing a run -/

/-- The route table after the three registrations of main. -/
def routes : ServeMux :=
  { m := [{ h := HandlerFunc.errorHandler, pattern := "/error" },
          { h := HandlerFunc.handler, pattern := "/container" },
          { h := HandlerFunc.handler, pattern := "/" }]
    es := [{ h := HandlerFunc.handler, pattern := "/" }]
    hosts := false }

/-- The results of the requests served by a run of main that starts in the
environment env, binds its listener and receives the events of traffic. -/
def run (env : Env) (traffic : List Event) : Option (List ServeResult) :=
  (main { env := env, listen := fun _ => none, traffic := traffic,
          acceptErr := "accept: use of closed network connection" }).map
    (fun e => e.served)

/-- The result of the single request r in a run of main in the environment
env. -/
def respond (env : Env) (r : Request) : Option ServeResult :=
  (run env [Event.request r]).bind List.head?

/-- A GET request for a path, with nothing else in it. -/
def get (path : String) : Request :=
  { Method := "GET", Host := "", Path := path, RawQuery := "", Header := [], Body := "" }

/-! ## Lemmas: formatting -/

theorem Sprintf_handler (m d : String) :
    Sprintf "Hi, I'm a container and this is my message: \"%s\", my instance ID is: %s" [m, d]
      = some ("Hi, I'm a container and this is my message: \"" ++ m
          ++ "\", my instance ID is: " ++ d) := by
  simp only [Sprintf, doPrintf, String.toList, Option.map_some', Option.some.injEq]
  apply String.ext
  simp [String.data_append, String.singleton]

theorem handler_eq (proc : Process) (r : Request) :
    handler proc ResponseWriter.fresh r
      = some { proc := proc
               w := { status := some 200
                      body := "Hi, I'm a container and this is my message: \""
                        ++ Getenv proc.env "MESSAGE" ++ "\", my instance ID is: "
                        ++ Getenv proc.env "CLOUDFLARE_DEPLOYMENT_ID" }
               completion := Completion.returned } := by
  simp only [handler, Fprintf, Sprintf_handler, Option.map_some', ResponseWriter.Write,
    ResponseWriter.WriteHeader, ResponseWriter.fresh, Option.some.injEq, Outcome.mk.injEq,
    ResponseWriter.mk.injEq, true_and, and_true]
  apply String.ext
  simp [String.data_append]

/-! ## Lemmas: path cleaning -/

theorem getLast?_cons_keep (x : Char) (tl : List Char) (h : tl.getLast? = some '/') :
    (x :: tl).getLast? = some '/' := by
  rw [List.getLast?_cons, h]; rfl

theorem getLast?_tail_of_ne (x : Char) (tl : List Char) (htl : tl ≠ [])
    (h : (x :: tl).getLast? = some '/') : tl.getLast? = some '/' := by
  cases tl with
  | nil => exact absurd rfl htl
  | cons y ys =>
    rw [List.getLast?_cons] at h
    cases hy : (y :: ys).getLast? with
    | none => simp at hy
    | some z => rw [hy] at h; simpa using h

theorem backtrack_getLast (rout : List Char) (h1 : 1 < rout.length)
    (h : rout.getLast? = some '/') : (backtrack 1 rout).getLast? = some '/' := by
  induction rout with
  | nil => simp at h1
  | cons x tl ih =>
    have htl : tl ≠ [] := by
      intro h0; subst h0; simp at h1
    have hl : tl.getLast? = some '/' := getLast?_tail_of_ne x tl htl h
    unfold backtrack
    split
    · rename_i hc
      simp only [Bool.and_eq_true, decide_eq_true_eq] at hc
      exact ih hc.1 hl
    · exact hl

theorem dotDot_rooted (rout : List Char) (h : rout.getLast? = some '/') :
    (dotDot true rout 1).1.getLast? = some '/' ∧ (dotDot true rout 1).2 = 1 := by
  unfold dotDot
  split
  · rename_i hc
    exact ⟨backtrack_getLast rout hc h, rfl⟩
  · simp [h]

theorem addSlash_getLast (rout : List Char) (h : rout.getLast? = some '/') :
    (addSlash true rout).getLast? = some '/' := by
  unfold addSlash
  split
  · exact getLast?_cons_keep _ _ h
  · exact h

/-- On a rooted path the output buffer of path.Clean keeps its leading
slash. -/
theorem cleanLoop_rooted (copying : Bool) (rest rout : List Char) (dotdot : Nat)
    (hd : dotdot = 1) (h : rout.getLast? = some '/') :
    (cleanLoop true copying rest rout dotdot).getLast? = some '/' := by
  induction copying, rest, rout, dotdot using cleanLoop.induct true with
  | case1 x rout d => simpa [cleanLoop] using h
  | case2 rest rout d ih => simpa [cleanLoop] using ih hd h
  | case3 c rest rout d hc ih =>
    rw [cleanLoop]
    · exact ih hd (getLast?_cons_keep _ _ h)
    · exact hc
  | case4 rest rout d ih => simpa [cleanLoop] using ih hd h
  | case5 rout d => simpa [cleanLoop] using h
  | case6 rest rout d ih => simpa [cleanLoop] using ih hd h
  | case7 rout d =>
    subst hd
    simpa [cleanLoop] using (dotDot_rooted rout h).1
  | case8 rest rout d ih =>
    subst hd
    rw [cleanLoop]
    exact ih (dotDot_rooted rout h).2 (dotDot_rooted rout h).1
  | case9 c rest rout d h1 h2 h3 h4 h5 ih =>
    rw [cleanLoop]
    · exact ih hd (getLast?_cons_keep _ _ (addSlash_getLast rout h))
    all_goals assumption

/-- The clean form of a rooted path is rooted. -/
theorem Clean_rooted (p : String) (h : p.toList.head? = some '/') :
    (Clean p).toList.head? = some '/' := by
  unfold Clean
  cases hp : p.toList with
  | nil => rw [hp] at h; simp at h
  | cons c rest =>
    rw [hp] at h
    have hc : c = '/' := by simpa using h
    subst hc
    have hr := cleanLoop_rooted false rest ['/'] 1 rfl rfl
    have hne : (cleanLoop true false rest ['/'] 1).length ≠ 0 := by
      intro h0
      rw [List.length_eq_zero] at h0
      rw [h0] at hr
      simp at hr
    simp only [decide_True, if_true, hne, if_false]
    simpa [String.toList, List.head?_reverse] using hr

theorem cleanPath_aux (p1 : String) (h1 : p1.toList.head? = some '/') :
    (if p1.toList.getLast? = some '/' ∧ Clean p1 ≠ "/" then
        if p1.length = (Clean p1).length + 1 ∧ (Clean p1).toList.isPrefixOf p1.toList = true
        then p1 else Clean p1 ++ "/"
      else Clean p1).toList.head? = some '/' := by
  have h2 := Clean_rooted p1 h1
  split
  · split
    · exact h1
    · have happ : (Clean p1 ++ "/").toList = (Clean p1).toList ++ ['/'] := by
        simp [String.toList, String.data_append]
      rw [happ]
      cases hq : (Clean p1).toList with
      | nil => rw [hq] at h2; simp at h2
      | cons a t => rw [hq] at h2; simpa using h2
  · exact h2

/-- Every path cleaned by the multiplexer begins with a slash. -/
theorem cleanPath_rooted (p : String) : (cleanPath p).toList.head? = some '/' := by
  unfold cleanPath
  by_cases hp : p = ""
  · simp [hp]
  · have h1 : (if p.toList.head? ≠ some '/' then "/" ++ p else p).toList.head? = some '/' := by
      split
      · simp [String.toList, String.data_append]
      · rename_i hh
        simpa using hh
    rw [if_neg hp]
    exact cleanPath_aux _ h1

/-! ## Lemmas: the route table of main -/

theorem main_eq (world : World) :
    main world =
      match ListenAndServe world { env := world.env, mux := routes } ":8080" with
      | none => none
      | some (listens, served, err) =>
        some { listens := listens, served := served, log := [err], code := 1 } := by
  rfl

theorem routes_lookup (s : String) :
    routes.lookup s =
      if s = "/error" then some { h := HandlerFunc.errorHandler, pattern := "/error" }
      else if s = "/container" then some { h := HandlerFunc.handler, pattern := "/container" }
      else if s = "/" then some { h := HandlerFunc.handler, pattern := "/" }
      else none := by
  unfold ServeMux.lookup routes
  by_cases h1 : s = "/error"
  · subst h1; rfl
  · by_cases h2 : s = "/container"
    · subst h2; rfl
    · by_cases h3 : s = "/"
      · subst h3; rfl
      · have e1 : ¬ "/error" = s := fun h => h1 h.symm
        have e2 : ¬ "/container" = s := fun h => h2 h.symm
        have e3 : ¬ "/" = s := fun h => h3 h.symm
        simp [List.find?, h1, h2, h3, e1, e2, e3]

theorem append_slash_registered (c : String)
    (h : (routes.lookup (c ++ "/")).isSome = true) : c = "" := by
  rw [routes_lookup] at h
  have hl : (c ++ "/").toList.getLast? = some '/' := by
    simp [String.toList, String.data_append]
  by_cases h1 : c ++ "/" = "/error"
  · rw [h1] at hl; exact absurd hl (by decide)
  · by_cases h2 : c ++ "/" = "/container"
    · rw [h2] at hl; exact absurd hl (by decide)
    · by_cases h3 : c ++ "/" = "/"
      · have hd := congrArg String.toList h3
        simp only [String.toList, String.data_append] at hd
        apply String.ext
        have : c.data ++ ['/'] = [] ++ ['/'] := hd
        exact List.append_cancel_right this
      · simp [h1, h2, h3] at h

theorem routes_shouldRedirect (host path : String) :
    routes.shouldRedirectRLocked host path = false := by
  unfold ServeMux.shouldRedirectRLocked
  simp only []
  split
  · rfl
  · split
    · rfl
    · rename_i hlen
      split
      · rename_i hany
        exfalso
        simp only [List.any_cons, List.any_nil, Bool.or_false, Bool.or_eq_true] at hany
        rcases hany with h | h
        · have := append_slash_registered _ h
          subst this
          exact hlen rfl
        · have := append_slash_registered _ h
          have hd := congrArg String.length this
          simp [String.length_append] at hd
          exact hlen hd.2
      · rfl

theorem routes_matchPath (path : String) (h : path.toList.head? = some '/') :
    routes.matchPath path =
      some (if path = "/error" then { h := HandlerFunc.errorHandler, pattern := "/error" }
        else if path = "/container" then { h := HandlerFunc.handler, pattern := "/container" }
        else { h := HandlerFunc.handler, pattern := "/" }) := by
  unfold ServeMux.matchPath
  simp only [routes_lookup]
  by_cases h1 : path = "/error"
  · simp [h1]
  · by_cases h2 : path = "/container"
    · simp [h2]
    · by_cases h3 : path = "/"
      · simp [h3]
      · have hp : ("/" : String).toList.isPrefixOf path.toList = true := by
          cases hq : path.toList with
          | nil => rw [hq] at h; simp at h
          | cons a t =>
            rw [hq] at h
            have : a = '/' := by simpa using h
            subst this
            simp [String.toList]
        simp only [h1, h2, h3, if_false]
        simp only [routes, List.find?, hp]

theorem routes_handler (host path : String) (h : path.toList.head? = some '/') :
    routes.handler host path =
      Handler.func (if path = "/error" then HandlerFunc.errorHandler
        else HandlerFunc.handler) := by
  unfold ServeMux.handler
  have hh : routes.hosts = false := rfl
  simp only [hh, routes_matchPath path h]
  by_cases h1 : path = "/error"
  · simp [h1]
  · by_cases h2 : path = "/container"
    · simp [h2]
    · simp [h1, h2]

theorem clean_path_rooted (path : String) (hc : cleanPath path = path) :
    path.toList.head? = some '/' := by
  have h := cleanPath_rooted path
  rw [hc] at h
  exact h

theorem clean_path_ne_star (path : String) (hc : cleanPath path = path) : path ≠ "*" := by
  intro h
  have h1 := clean_path_rooted path hc
  rw [h] at h1
  exact absurd h1 (by decide)

theorem routes_Handler_clean (r : Request) (hc : cleanPath r.Path = r.Path) :
    routes.Handler r =
      Handler.func (if r.Path = "/error" then HandlerFunc.errorHandler
        else HandlerFunc.handler) := by
  unfold ServeMux.Handler
  simp only [routes_shouldRedirect, hc, ne_eq, not_true_eq_false, if_false, ite_self,
    Bool.false_eq_true]
  exact routes_handler r.Host r.Path (clean_path_rooted r.Path hc)

theorem routes_Handler_unclean (r : Request) (hm : r.Method ≠ "CONNECT")
    (hc : cleanPath r.Path ≠ r.Path) :
    routes.Handler r = Handler.Redirect (cleanPath r.Path) r.RawQuery 301 := by
  unfold ServeMux.Handler
  simp only [routes_shouldRedirect, hm, hc, ne_eq, not_false_eq_true, if_true, if_false,
    Bool.false_eq_true]

/-! ## Lemmas: serving -/

theorem serveRequest_clean (env : Env) (r : Request) (hc : cleanPath r.Path = r.Path) :
    serveRequest { env := env, mux := routes } r =
      some ({ env := env, mux := routes },
        if r.Path = "/error" then
          ServeResult.aborted "This is a panic" ResponseWriter.fresh
        else
          ServeResult.response 200
            ("Hi, I'm a container and this is my message: \"" ++ Getenv env "MESSAGE"
              ++ "\", my instance ID is: " ++ Getenv env "CLOUDFLARE_DEPLOYMENT_ID")) := by
  have hs : r.Path ≠ "*" := clean_path_ne_star r.Path hc
  unfold serveRequest
  simp only [hs, false_and, if_false, routes_Handler_clean r hc]
  by_cases h1 : r.Path = "/error"
  · simp [h1, HandlerFunc.ServeHTTP, errorHandler, finishRequest]
  · simp [h1, HandlerFunc.ServeHTTP, handler_eq, finishRequest]

theorem serveRequest_unclean (env : Env) (r : Request) (hm : r.Method ≠ "CONNECT")
    (hs : r.Path ≠ "*") (hc : cleanPath r.Path ≠ r.Path) :
    serveRequest { env := env, mux := routes } r =
      some ({ env := env, mux := routes },
        ServeResult.redirect 301 (cleanPath r.Path) r.RawQuery) := by
  unfold serveRequest
  simp only [hs, false_and, if_false, routes_Handler_unclean r hm hc]

/-- Serving a request always produces a result and leaves the process state
as it was. -/
theorem serveRequest_frame (proc : Process) (r : Request) :
    ∃ res, serveRequest proc r = some (proc, res) := by
  unfold serveRequest
  split
  · exact ⟨_, rfl⟩
  · split
    · exact ⟨_, rfl⟩
    · split
      · rename_i f _
        cases f with
        | handler =>
          simp only [HandlerFunc.ServeHTTP, handler_eq, Option.map_some']
          exact ⟨_, rfl⟩
        | errorHandler =>
          simp only [HandlerFunc.ServeHTTP, errorHandler, Option.map_some']
          exact ⟨_, rfl⟩
      · exact ⟨_, rfl⟩
      · exact ⟨_, rfl⟩

theorem Serve_append (proc : Process) (a b : List Event) :
    Serve proc (a ++ b) =
      match Serve proc a with
      | none => none
      | some (proc1, ra) =>
        match Serve proc1 b with
        | none => none
        | some (proc2, rb) => some (proc2, ra ++ rb) := by
  induction a generalizing proc with
  | nil =>
    simp only [List.nil_append, Serve]
    cases Serve proc b with
    | none => rfl
    | some x => rfl
  | cons e rest ih =>
    rw [List.cons_append]
    cases e with
    | environ env =>
      have e1 : ∀ l, Serve proc (Event.environ env :: l) = Serve { proc with env := env } l :=
        fun l => rfl
      rw [e1, e1, ih]
    | request r =>
      obtain ⟨res, hres⟩ := serveRequest_frame proc r
      have e1 : ∀ l, Serve proc (Event.request r :: l) =
          match Serve proc l with
          | none => none
          | some (proc2, results) => some (proc2, res :: results) := by
        intro l
        simp only [Serve, hres]
      rw [e1, e1, ih]
      cases Serve proc rest with
      | none => rfl
      | some x =>
        obtain ⟨p1, ra⟩ := x
        simp only []
        cases Serve p1 b with
        | none => rfl
        | some y => rfl

/-- The accept loop always produces its results. -/
theorem Serve_total (proc : Process) (events : List Event) :
    ∃ proc1 results, Serve proc events = some (proc1, results) ∧ proc1.mux = proc.mux := by
  induction events generalizing proc with
  | nil => exact ⟨proc, [], rfl, rfl⟩
  | cons e rest ih =>
    cases e with
    | environ env =>
      obtain ⟨p1, rs, h1, h2⟩ := ih { proc with env := env }
      exact ⟨p1, rs, by simp only [Serve, h1], h2⟩
    | request r =>
      obtain ⟨res, hres⟩ := serveRequest_frame proc r
      obtain ⟨p1, rs, h1, h2⟩ := ih proc
      exact ⟨p1, res :: rs, by simp only [Serve, hres, h1], h2⟩

/-- Requests alone leave the process state as it was. -/
theorem Serve_requests_frame (proc : Process) (rs : List Request) :
    ∃ results, Serve proc (rs.map Event.request) = some (proc, results) := by
  induction rs with
  | nil => exact ⟨[], rfl⟩
  | cons r rest ih =>
    obtain ⟨res, hres⟩ := serveRequest_frame proc r
    obtain ⟨results, h1⟩ := ih
    exact ⟨res :: results, by simp only [List.map_cons, Serve, hres, h1]⟩

theorem run_eq (env : Env) (traffic : List Event) :
    run env traffic =
      (Serve { env := env, mux := routes } traffic).map (fun x => x.2) := by
  unfold run
  rw [main_eq]
  unfold ListenAndServe
  simp only []
  cases Serve { env := env, mux := routes } traffic with
  | none => rfl
  | some x => rfl

theorem respond_eq (env : Env) (r : Request) :
    respond env r = (serveRequest { env := env, mux := routes } r).map (fun x => x.2) := by
  unfold respond
  rw [run_eq]
  obtain ⟨res, hres⟩ := serveRequest_frame { env := env, mux := routes } r
  simp only [Serve, hres, Option.map_some', Option.some_bind, List.head?_cons]

theorem root_clean : cleanPath "/" = "/" := by decide

theorem container_clean : cleanPath "/container" = "/container" := by decide

theorem error_clean : cleanPath "/error" = "/error" := by decide

theorem handler_any_writer (proc : Process) (w : ResponseWriter) (r : Request) :
    handler proc w r =
      some { proc := proc
             w := w.Write ("Hi, I'm a container and this is my message: \""
               ++ Getenv proc.env "MESSAGE" ++ "\", my instance ID is: "
               ++ Getenv proc.env "CLOUDFLARE_DEPLOYMENT_ID")
             completion := Completion.returned } := by
  simp only [handler, Fprintf, Sprintf_handler, Option.map_some']

theorem serveRequest_root (env : Env) (r : Request) (hpath : r.Path = "/") :
    serveRequest { env := env, mux := routes } r =
      some ({ env := env, mux := routes },
        ServeResult.response 200
          ("Hi, I'm a container and this is my message: \"" ++ Getenv env "MESSAGE"
            ++ "\", my instance ID is: " ++ Getenv env "CLOUDFLARE_DEPLOYMENT_ID")) := by
  have hc : cleanPath r.Path = r.Path := by rw [hpath]; exact root_clean
  have hne : r.Path ≠ "/error" := by rw [hpath]; decide
  rw [serveRequest_clean env r hc, if_neg hne]

theorem Serve_replicate (proc : Process) (r : Request) (res : ServeResult)
    (h : serveRequest proc r = some (proc, res)) (n : Nat) :
    Serve proc (List.replicate n (Event.request r)) = some (proc, List.replicate n res) := by
  induction n with
  | zero => rfl
  | succ k ih => simp only [List.replicate_succ, Serve, h, ih]

/-! ## The properties of the program -/

/-- C1: for every pair of strings m and d bound to MESSAGE and
CLOUDFLARE_DEPLOYMENT_ID in the environment, the empty string included, a
request for the path / (a GET, as any other method) is answered by a run of
main with status 200 and a body that is exactly the fixed text, m, the fixed
text, d; and the function handler itself returns normally having written
exactly that status and body.  The two values are copied unchanged: they
are arbitrary strings and are never scanned for percent signs or quotes. -/
theorem get_root_greeting (env : Env) (r : Request) (m d : String)
    (hm : LookupEnv env "MESSAGE" = some m)
    (hd : LookupEnv env "CLOUDFLARE_DEPLOYMENT_ID" = some d)
    (hpath : r.Path = "/") :
    respond env r =
        some (ServeResult.response 200
          ("Hi, I'm a container and this is my message: \"" ++ m
            ++ "\", my instance ID is: " ++ d))
      ∧ ∀ mux : ServeMux,
          handler { env := env, mux := mux } ResponseWriter.fresh r =
            some { proc := { env := env, mux := mux }
                   w := { status := some 200
                          body := "Hi, I'm a container and this is my message: \"" ++ m
                            ++ "\", my instance ID is: " ++ d }
                   completion := Completion.returned } := by
  have gm : Getenv env "MESSAGE" = m := by simp only [Getenv, hm]
  have gd : Getenv env "CLOUDFLARE_DEPLOYMENT_ID" = d := by simp only [Getenv, hd]
  have hc : cleanPath r.Path = r.Path := by rw [hpath]; exact root_clean
  have hne : r.Path ≠ "/error" := by rw [hpath]; decide
  constructor
  · rw [respond_eq, serveRequest_clean env r hc, if_neg hne, gm, gd]
    rfl
  · intro mux
    rw [handler_eq]
    simp only [gm, gd]

/-- C1 at the values of the spec's scenario: MESSAGE hello and
CLOUDFLARE_DEPLOYMENT_ID abc123. -/
theorem get_root_greeting_witness :
    respond [("MESSAGE", "hello"), ("CLOUDFLARE_DEPLOYMENT_ID", "abc123")] (get "/") =
      some (ServeResult.response 200
        "Hi, I'm a container and this is my message: \"hello\", my instance ID is: abc123") :=
  (get_root_greeting [("MESSAGE", "hello"), ("CLOUDFLARE_DEPLOYMENT_ID", "abc123")] (get "/")
    "hello" "abc123" (by decide) (by decide) (by decide)).1

set_option maxRecDepth 100000 in
/-- C2 as stated fails: the path /foo is none of /, /container and /error,
and a GET to it is answered with status 200 and the greeting, not with
404. -/
theorem get_foo_is_greeted :
    "/foo" ≠ "/" ∧ "/foo" ≠ "/container" ∧ "/foo" ≠ "/error"
      ∧ respond [] (get "/foo") =
          some (ServeResult.response 200
            "Hi, I'm a container and this is my message: \"\", my instance ID is: ")
      ∧ (respond [] (get "/foo")).bind ServeResult.status ≠ some 404 := by
  decide

/-- C2 amended: the pattern / registered by main is a subtree pattern, and
only /container and /error are matched exactly.  For every environment, no
GET to a path other than /container and /error is answered with 404; when
the path is in canonical form (the path cleaning of the multiplexer leaves
it unchanged), the GET is dispatched to handler by the pattern / and is
answered with status 200 and the greeting. -/
theorem get_other_path_greeting (env : Env) (r : Request)
    (hmeth : r.Method = "GET") (h1 : r.Path ≠ "/container") (h2 : r.Path ≠ "/error") :
    (respond env r).bind ServeResult.status ≠ some 404
      ∧ (cleanPath r.Path = r.Path →
          routes.matchPath r.Path = some { h := HandlerFunc.handler, pattern := "/" }
            ∧ respond env r =
                some (ServeResult.response 200
                  ("Hi, I'm a container and this is my message: \"" ++ Getenv env "MESSAGE"
                    ++ "\", my instance ID is: "
                    ++ Getenv env "CLOUDFLARE_DEPLOYMENT_ID"))) := by
  have hgreet : cleanPath r.Path = r.Path →
      respond env r =
        some (ServeResult.response 200
          ("Hi, I'm a container and this is my message: \"" ++ Getenv env "MESSAGE"
            ++ "\", my instance ID is: " ++ Getenv env "CLOUDFLARE_DEPLOYMENT_ID")) := by
    intro hc
    rw [respond_eq, serveRequest_clean env r hc, if_neg h2]
    rfl
  constructor
  · have hconn : r.Method ≠ "CONNECT" := by rw [hmeth]; decide
    by_cases hc : cleanPath r.Path = r.Path
    · rw [hgreet hc]
      simp [ServeResult.status]
    · rw [respond_eq]
      by_cases hs : r.Path = "*"
      · have hopt : r.Method ≠ "OPTIONS" := by rw [hmeth]; decide
        simp [serveRequest, hs, hopt, ServeResult.status]
      · rw [serveRequest_unclean env r hconn hs hc]
        simp [ServeResult.status]
  · intro hc
    refine ⟨?_, hgreet hc⟩
    rw [routes_matchPath r.Path (clean_path_rooted r.Path hc), if_neg h2, if_neg h1]

/-- C2 amended, at the path /foo in the empty environment. -/
theorem get_other_path_greeting_witness :
    respond [] (get "/foo") =
      some (ServeResult.response 200
        ("Hi, I'm a container and this is my message: \"" ++ Getenv [] "MESSAGE"
          ++ "\", my instance ID is: " ++ Getenv [] "CLOUDFLARE_DEPLOYMENT_ID")) :=
  ((get_other_path_greeting [] (get "/foo") (by decide) (by decide) (by decide)).2
    (by decide)).2

/-- C3: for every environment and every request, a request for the path
/error is dispatched to errorHandler, and errorHandler panics with exactly
the value This is a panic, leaving the response writer as it received it.
The run gives the request no response: the panic ends the handler before any
status or body byte, so the result is never a response with status 200. -/
theorem error_route_panics (env : Env) (r : Request) (hpath : r.Path = "/error") :
    routes.Handler r = Handler.func HandlerFunc.errorHandler
      ∧ (∀ (proc : Process) (w : ResponseWriter),
          errorHandler proc w r =
            some { proc := proc, w := w,
                   completion := Completion.panicked "This is a panic" })
      ∧ respond env r = some (ServeResult.aborted "This is a panic" ResponseWriter.fresh)
      ∧ ResponseWriter.fresh = { status := none, body := "" }
      ∧ (respond env r).bind ServeResult.status ≠ some 200 := by
  have hc : cleanPath r.Path = r.Path := by rw [hpath]; exact error_clean
  have hr : respond env r = some (ServeResult.aborted "This is a panic" ResponseWriter.fresh) := by
    rw [respond_eq, serveRequest_clean env r hc, if_pos hpath]
    rfl
  refine ⟨?_, ?_, hr, rfl, ?_⟩
  · rw [routes_Handler_clean r hc, if_pos hpath]
  · intro proc w
    rfl
  · rw [hr]
    simp [ServeResult.status]

/-- C3 at a GET for /error in the empty environment. -/
theorem error_route_panics_witness :
    respond [] (get "/error") =
      some (ServeResult.aborted "This is a panic" ResponseWriter.fresh) :=
  (error_route_panics [] (get "/error") (by decide)).2.2.1

/-- C4: for every environment and every request, the result for the path
/container is the same as the result for the path / of the otherwise same
request: both paths are bound to handler, and both give status 200 and the
greeting. -/
theorem container_same_as_root (env : Env) (r : Request) :
    respond env { r with Path := "/container" } = respond env { r with Path := "/" }
      ∧ routes.Handler { r with Path := "/container" } = Handler.func HandlerFunc.handler
      ∧ routes.Handler { r with Path := "/" } = Handler.func HandlerFunc.handler
      ∧ respond env { r with Path := "/container" } =
          some (ServeResult.response 200
            ("Hi, I'm a container and this is my message: \"" ++ Getenv env "MESSAGE"
              ++ "\", my instance ID is: " ++ Getenv env "CLOUDFLARE_DEPLOYMENT_ID")) := by
  have hc1 : cleanPath ({ r with Path := "/container" } : Request).Path
      = ({ r with Path := "/container" } : Request).Path := container_clean
  have hc2 : cleanPath ({ r with Path := "/" } : Request).Path
      = ({ r with Path := "/" } : Request).Path := root_clean
  have e1 : ("/container" : String) ≠ "/error" := by decide
  have e2 : ("/" : String) ≠ "/error" := by decide
  refine ⟨?_, ?_, ?_, ?_⟩
  · rw [respond_eq, respond_eq, serveRequest_clean env _ hc1, serveRequest_clean env _ hc2]
    simp only [e1, e2, if_false, Option.map_some']
  · rw [routes_Handler_clean _ hc1]
    simp only [e1, if_false]
  · rw [routes_Handler_clean _ hc2]
    simp only [e2, if_false]
  · rw [respond_eq, serveRequest_clean env _ hc1]
    simp only [e1, if_false, Option.map_some']

/-- C5: a missing variable is never an error.  For every environment,
when MESSAGE is unset, handler returns normally with status 200 and the
greeting with the empty string in the place of MESSAGE, and writes the same
status and body as in the environment in which MESSAGE is set to the empty
string; likewise for CLOUDFLARE_DEPLOYMENT_ID; and with both unset the body
is exactly the greeting with two empty values. -/
theorem handler_unset_variable (env : Env) (mux : ServeMux) (r : Request) :
    (LookupEnv env "MESSAGE" = none →
        handler { env := env, mux := mux } ResponseWriter.fresh r =
          some { proc := { env := env, mux := mux }
                 w := { status := some 200
                        body := "Hi, I'm a container and this is my message: \"" ++ ""
                          ++ "\", my instance ID is: "
                          ++ Getenv env "CLOUDFLARE_DEPLOYMENT_ID" }
                 completion := Completion.returned }
        ∧ (handler { env := ("MESSAGE", "") :: env, mux := mux } ResponseWriter.fresh r).map
              (fun o => (o.w, o.completion))
            = (handler { env := env, mux := mux } ResponseWriter.fresh r).map
                (fun o => (o.w, o.completion)))
      ∧ (LookupEnv env "CLOUDFLARE_DEPLOYMENT_ID" = none →
        handler { env := env, mux := mux } ResponseWriter.fresh r =
          some { proc := { env := env, mux := mux }
                 w := { status := some 200
                        body := "Hi, I'm a container and this is my message: \""
                          ++ Getenv env "MESSAGE" ++ "\", my instance ID is: " ++ "" }
                 completion := Completion.returned }
        ∧ (handler { env := ("CLOUDFLARE_DEPLOYMENT_ID", "") :: env, mux := mux }
              ResponseWriter.fresh r).map (fun o => (o.w, o.completion))
            = (handler { env := env, mux := mux } ResponseWriter.fresh r).map
                (fun o => (o.w, o.completion)))
      ∧ (LookupEnv env "MESSAGE" = none → LookupEnv env "CLOUDFLARE_DEPLOYMENT_ID" = none →
          (handler { env := env, mux := mux } ResponseWriter.fresh r).map (fun o => o.w) =
            some { status := some 200
                   body := "Hi, I'm a container and this is my message: \"\", my instance ID is: " })
    := by
  have hnone : ∀ k : String, LookupEnv env k = none → Getenv env k = "" := by
    intro k hk
    simp only [Getenv, hk]
  have hcons : ∀ k k2 : String, k ≠ k2 →
      Getenv ((k, "") :: env) k2 = Getenv env k2 := by
    intro k k2 hk
    simp only [Getenv, LookupEnv, hk, if_false]
  have hself : ∀ k : String, Getenv ((k, "") :: env) k = "" := by
    intro k
    simp only [Getenv, LookupEnv, if_true]
  refine ⟨?_, ?_, ?_⟩
  · intro hm
    constructor
    · rw [handler_eq, hnone _ hm]
    · rw [handler_eq, handler_eq]
      simp only [Option.map_some', hself, hnone _ hm]
      rw [hcons "MESSAGE" "CLOUDFLARE_DEPLOYMENT_ID" (by decide)]
  · intro hd
    constructor
    · rw [handler_eq, hnone _ hd]
    · rw [handler_eq, handler_eq]
      simp only [Option.map_some', hself, hnone _ hd]
      rw [hcons "CLOUDFLARE_DEPLOYMENT_ID" "MESSAGE" (by decide)]
  · intro hm hd
    rw [handler_eq]
    simp only [Option.map_some', hnone _ hm, hnone _ hd]
    rfl

/-- C5 in the empty environment, where both variables are unset. -/
theorem handler_unset_variable_witness :
    (handler { env := [], mux := routes } ResponseWriter.fresh (get "/")).map (fun o => o.w) =
      some { status := some 200
             body := "Hi, I'm a container and this is my message: \"\", my instance ID is: " } :=
  (handler_unset_variable [] routes (get "/")).2.2 rfl rfl

/-- C6: the environment is read when a request is handled.  For every two
environments e1 and e2, with e1 holding the values m1 and d1 of MESSAGE and
CLOUDFLARE_DEPLOYMENT_ID and e2 holding m2 and d2 (an unset variable
counting as the empty string): when a request for / is served under e1, the
environment is then replaced by e2 and a second request for / is served,
the first body is the greeting filled with m1 and d1 and the second the
greeting filled with m2 and d2.  More generally, after any events whatever
since a start in any environment e0, a request for / that follows a change
of the environment to e2 is answered with the greeting filled with m2 and
d2, and the earlier results are as they would be without it. -/
theorem environment_read_per_request (e0 e1 e2 : Env) (pre : List Event)
    (r1 r2 : Request) (m1 d1 m2 d2 : Option String)
    (h1 : r1.Path = "/") (h2 : r2.Path = "/")
    (hm1 : LookupEnv e1 "MESSAGE" = m1)
    (hd1 : LookupEnv e1 "CLOUDFLARE_DEPLOYMENT_ID" = d1)
    (hm2 : LookupEnv e2 "MESSAGE" = m2)
    (hd2 : LookupEnv e2 "CLOUDFLARE_DEPLOYMENT_ID" = d2) :
    run e1 [Event.request r1, Event.environ e2, Event.request r2] =
        some [ServeResult.response 200
                ("Hi, I'm a container and this is my message: \"" ++ m1.getD ""
                  ++ "\", my instance ID is: " ++ d1.getD ""),
              ServeResult.response 200
                ("Hi, I'm a container and this is my message: \"" ++ m2.getD ""
                  ++ "\", my instance ID is: " ++ d2.getD "")]
      ∧ ∃ results, run e0 pre = some results
          ∧ run e0 (pre ++ [Event.environ e2, Event.request r2]) =
              some (results ++
                [ServeResult.response 200
                  ("Hi, I'm a container and this is my message: \"" ++ m2.getD ""
                    ++ "\", my instance ID is: " ++ d2.getD "")]) := by
  have hg : ∀ (e : Env) (k : String) (v : Option String),
      LookupEnv e k = v → Getenv e k = v.getD "" := by
    intro e k v hv
    unfold Getenv
    rw [hv]
    cases v <;> rfl
  have g1m := hg e1 _ m1 hm1
  have g1d := hg e1 _ d1 hd1
  have g2m := hg e2 _ m2 hm2
  have g2d := hg e2 _ d2 hd2
  constructor
  · rw [run_eq]
    simp only [Serve, serveRequest_root e1 r1 h1, serveRequest_root e2 r2 h2,
      Option.map_some', g1m, g1d, g2m, g2d]
  · obtain ⟨p1, results, hs, hmux⟩ := Serve_total { env := e0, mux := routes } pre
    have hp : ({ p1 with env := e2 } : Process) = { env := e2, mux := routes } := by
      simp only [hmux]
    refine ⟨results, ?_, ?_⟩
    · rw [run_eq, hs]
      rfl
    · rw [run_eq, Serve_append, hs]
      simp only [Serve, hp, serveRequest_root e2 r2 h2, Option.map_some', g2m, g2d]

/-- C6 at a redeploy from the message one with instance id1 to the message
two with instance id2: the first GET for / carries one and id1, the GET
after the change carries two and id2. -/
theorem environment_read_per_request_witness :
    run [("MESSAGE", "one"), ("CLOUDFLARE_DEPLOYMENT_ID", "id1")]
        [Event.request (get "/"),
         Event.environ [("MESSAGE", "two"), ("CLOUDFLARE_DEPLOYMENT_ID", "id2")],
         Event.request (get "/")] =
      some [ServeResult.response 200
              "Hi, I'm a container and this is my message: \"one\", my instance ID is: id1",
            ServeResult.response 200
              "Hi, I'm a container and this is my message: \"two\", my instance ID is: id2"] :=
  (environment_read_per_request [] [("MESSAGE", "one"), ("CLOUDFLARE_DEPLOYMENT_ID", "id1")]
    [("MESSAGE", "two"), ("CLOUDFLARE_DEPLOYMENT_ID", "id2")] [] (get "/") (get "/")
    (some "one") (some "id1") (some "two") (some "id2")
    (by decide) (by decide) (by decide) (by decide) (by decide) (by decide)).1

/-- C7: the greeting is a function of the two environment values only.  For
every two calls of handler in process states whose environments give the
same MESSAGE and the same CLOUDFLARE_DEPLOYMENT_ID, whatever the two
requests are, whatever else the two environments and route tables hold, and
after whatever requests each process has served before (which leave its
state as it was), handler returns normally in both with one and the same
status and body.  In particular any number of repeated requests for / in an
unchanged environment all get that same status and body. -/
theorem greeting_depends_on_two_values (proc1 proc2 : Process)
    (hist1 hist2 : List Request) (r1 r2 : Request)
    (hm : Getenv proc1.env "MESSAGE" = Getenv proc2.env "MESSAGE")
    (hd : Getenv proc1.env "CLOUDFLARE_DEPLOYMENT_ID"
      = Getenv proc2.env "CLOUDFLARE_DEPLOYMENT_ID") :
    ∃ (w : ResponseWriter) (res1 res2 : List ServeResult),
      Serve proc1 (hist1.map Event.request) = some (proc1, res1)
        ∧ Serve proc2 (hist2.map Event.request) = some (proc2, res2)
        ∧ handler proc1 ResponseWriter.fresh r1 =
            some { proc := proc1, w := w, completion := Completion.returned }
        ∧ handler proc2 ResponseWriter.fresh r2 =
            some { proc := proc2, w := w, completion := Completion.returned }
        ∧ w.status = some 200
        ∧ (r1.Path = "/" → ∀ n : Nat,
            run proc1.env (List.replicate n (Event.request r1)) =
              some (List.replicate n (ServeResult.response 200 w.body))) := by
  obtain ⟨res1, hs1⟩ := Serve_requests_frame proc1 hist1
  obtain ⟨res2, hs2⟩ := Serve_requests_frame proc2 hist2
  refine ⟨_, res1, res2, hs1, hs2, handler_eq proc1 r1, ?_, rfl, ?_⟩
  · rw [handler_eq, hm, hd]
  · intro hpath n
    rw [run_eq, Serve_replicate _ r1 _ (serveRequest_root proc1.env r1 hpath) n]
    rfl

/-- C7 at two environments that differ in another variable only, a GET for /
and a POST for /container, after different histories. -/
theorem greeting_depends_on_two_values_witness :
    ∃ (w : ResponseWriter) (res1 res2 : List ServeResult),
      Serve { env := [("MESSAGE", "m"), ("OTHER", "1")], mux := routes }
          ([get "/error", get "/x"].map Event.request)
          = some ({ env := [("MESSAGE", "m"), ("OTHER", "1")], mux := routes }, res1)
        ∧ Serve { env := [("OTHER", "2"), ("MESSAGE", "m")], mux := DefaultServeMux }
            ([].map Event.request)
          = some ({ env := [("OTHER", "2"), ("MESSAGE", "m")], mux := DefaultServeMux }, res2)
        ∧ handler { env := [("MESSAGE", "m"), ("OTHER", "1")], mux := routes }
            ResponseWriter.fresh (get "/") =
            some { proc := { env := [("MESSAGE", "m"), ("OTHER", "1")], mux := routes }
                   w := w, completion := Completion.returned }
        ∧ handler { env := [("OTHER", "2"), ("MESSAGE", "m")], mux := DefaultServeMux }
            ResponseWriter.fresh { get "/container" with Method := "POST", Body := "x" } =
            some { proc := { env := [("OTHER", "2"), ("MESSAGE", "m")], mux := DefaultServeMux }
                   w := w, completion := Completion.returned }
        ∧ w.status = some 200
        ∧ ((get "/").Path = "/" → ∀ n : Nat,
            run [("MESSAGE", "m"), ("OTHER", "1")] (List.replicate n (Event.request (get "/"))) =
              some (List.replicate n (ServeResult.response 200 w.body))) :=
  greeting_depends_on_two_values
    { env := [("MESSAGE", "m"), ("OTHER", "1")], mux := routes }
    { env := [("OTHER", "2"), ("MESSAGE", "m")], mux := DefaultServeMux }
    [get "/error", get "/x"] [] (get "/")
    { get "/container" with Method := "POST", Body := "x" } (by decide) (by decide)

/-- C8: handling a request changes nothing but the response writer.  For
every process state, response writer and request, handler returns with the
process state (every variable of the environment and the route table)
exactly as it was; and serving any request at all leaves the process state
as it was. -/
theorem handler_changes_only_writer (proc : Process) (w : ResponseWriter) (r : Request) :
    (∃ o : Outcome, handler proc w r = some o ∧ o.proc = proc ∧ o.proc.env = proc.env
        ∧ o.proc.mux = proc.mux ∧ o.completion = Completion.returned)
      ∧ ∃ res : ServeResult, serveRequest proc r = some (proc, res) := by
  refine ⟨⟨_, handler_any_writer proc w r, rfl, rfl, rfl, rfl⟩, serveRequest_frame proc r⟩

/-- C9: a failure to bind is fatal and is not retried.  For every run in
which the one call of net.Listen for the address :8080 fails with an error
e, main calls net.Listen exactly once, serves no request, logs e and exits
with status 1, which is not zero. -/
theorem bind_failure_is_fatal (world : World) (e : String)
    (h : world.listen ":8080" = some e) :
    main world = some { listens := [":8080"], served := [], log := [e], code := 1 }
      ∧ (main world).map (fun x => x.listens.length) = some 1
      ∧ (main world).map (fun x => decide (x.code = 0)) = some false := by
  have hmain : main world =
      some { listens := [":8080"], served := [], log := [e], code := 1 } := by
    rw [main_eq]
    simp only [ListenAndServe, h]
  refine ⟨hmain, ?_, ?_⟩
  · rw [hmain]; rfl
  · rw [hmain]; rfl

/-- C9 at a run in which the port is in use. -/
theorem bind_failure_is_fatal_witness :
    main { env := [], listen := fun _ => some "listen tcp :8080: bind: address already in use",
           traffic := [Event.request (get "/")], acceptErr := "" } =
      some { listens := [":8080"], served := [],
             log := ["listen tcp :8080: bind: address already in use"], code := 1 } :=
  (bind_failure_is_fatal
    { env := [], listen := fun _ => some "listen tcp :8080: bind: address already in use",
      traffic := [Event.request (get "/")], acceptErr := "" }
    "listen tcp :8080: bind: address already in use" rfl).1

/-- C10: the body does not determine the two values.  The two pairs of the
claim are distinct, and for every route table and request handler writes
exactly the same body for both. -/
theorem body_does_not_determine_values :
    (("a\", my instance ID is: b", "c") : String × String)
        ≠ ("a", "b\", my instance ID is: c")
      ∧ ∀ (mux : ServeMux) (r : Request),
          (handler { env := [("MESSAGE", "a\", my instance ID is: b"),
                             ("CLOUDFLARE_DEPLOYMENT_ID", "c")], mux := mux }
              ResponseWriter.fresh r).map (fun o => o.w.body)
            = some ("Hi, I'm a container and this is my message: "
                ++ "\"a\", my instance ID is: b\", my instance ID is: c")
          ∧ (handler { env := [("MESSAGE", "a"),
                               ("CLOUDFLARE_DEPLOYMENT_ID", "b\", my instance ID is: c")],
                       mux := mux }
              ResponseWriter.fresh r).map (fun o => o.w.body)
            = some ("Hi, I'm a container and this is my message: "
                ++ "\"a\", my instance ID is: b\", my instance ID is: c") := by
  refine ⟨by decide, ?_⟩
  intro mux r
  constructor
  · rw [handler_eq]
    simp only [Option.map_some', Option.some.injEq]
    decide
  · rw [handler_eq]
    simp only [Option.map_some', Option.some.injEq]
    decide

end ContainerSrc
